import Mathlib

/-
Verification of the album-retrieval route of chibisafe
(packages/backend/src/routes/album/GetAlbum.ts).

The handler is shallowly embedded: the relational store becomes an explicit
list of album rows, the two prisma `findFirst` queries become `List.find?`
over that list, the nested `files` select (orderBy / skip / take) becomes an
insertion sort followed by `List.drop` and `List.take`, and the fastify
response becomes an inductive `Response` value.  JavaScript string falsiness
(null / undefined / empty string) is modelled by `Option String` together
with an emptiness check.
-/

namespace Chibisafe

/-- A row of the `files` table.  The route selects createdAt, hash, ip, name,
original, size, type, uuid, isS3 and isWatched; the `id` column is not
selected but is the column used by the default `id desc` ordering, so it is
part of the row model. -/
structure FileRow where
  id : Nat
  createdAt : Nat
  hash : String
  ip : String
  name : String
  original : String
  size : Nat
  type : String
  uuid : String
  isS3 : Bool
  isWatched : Bool
deriving Repr, DecidableEq

/-- A row of the `albums` table together with its `files` relation, holding
every column the handler touches.  `sortOrder` is a nullable string column,
modelled as `Option String`. -/
structure Album where
  uuid : String
  userId : Nat
  name : String
  description : Option String
  nsfw : Bool
  sortOrder : Option String
  files : List FileRow
deriving Repr, DecidableEq

/-- The process-wide SETTINGS the route reads: the global default sort order
(nullable / possibly empty) and the public object-storage base URL used when
building public links. -/
structure Settings where
  defaultSortOrder : Option String
  S3PublicUrl : String
deriving Repr, DecidableEq

/-- The authenticated request: path parameter `uuid`, the requesting user id
(from the auth middleware), the optional `page` and `limit` query parameters,
and the request base URL used for local-storage public links. -/
structure Request where
  uuid : String
  userId : Nat
  page : Option Nat
  limit : Option Nat
  baseUrl : String
deriving Repr, DecidableEq

/-- Split a character list on a separator character, JavaScript
`String.prototype.split` style: the empty string yields `[""]`, a trailing
separator yields a trailing `""`.  Structurally recursive so that it reduces
inside the kernel. -/
def splitChars (sep : Char) : List Char → List String
  | [] => [""]
  | c :: cs =>
    match splitChars sep cs with
    | [] => if c = sep then ["", ""] else [String.mk [c]]
    | r :: rs =>
      if c = sep then "" :: r :: rs
      else String.mk (c :: r.data) :: rs

/-- JavaScript `s.split(sep)` for a single-character separator. -/
def jsSplit (s : String) (sep : Char) : List String :=
  splitChars sep s.data


/-- The fields the valid sort-order allow-list accepts (GetAlbum.ts line 21). -/
def validFields : List String := ["createdAt", "name", "size"]

/-- The directions the allow-list accepts (GetAlbum.ts line 22). -/
def validDirections : List String := ["asc", "desc"]

/-- parseSortOrder (GetAlbum.ts lines 14-29).  The returned prisma `orderBy`
object `\x7b [field]: direction \x7d` — a record with a single dynamic key —
is modelled as a singleton association list.  JavaScript destructuring
`[field, direction] = sortOrder.split(":")` yields `undefined` for a missing
component; since the code only tests falsiness (`!field`, `!direction`) and
list membership, `undefined` is conflated with the (equally falsy,
equally non-member) empty string via `getD ""`. -/
def parseSortOrder (sortOrder : Option String) : List (String × String) :=
  let defaultOrder := [("id", "desc")]
  match sortOrder with
  | none => defaultOrder
  | some s =>
    if s = "" then defaultOrder
    else
      let parts := jsSplit s ':'
      let field := parts.getD 0 ""
      let direction := parts.getD 1 ""
      if field = "" ∨ direction = "" then defaultOrder
      else if field ∉ validFields ∨ direction ∉ validDirections then defaultOrder
      else [(field, direction)]


/-- The amended C2 claim, written from its words: the first two
colon-separated segments of the input decide the ordering when they are an
allowed field and an allowed direction, any further segments being ignored;
every other input yields the default id desc. -/
def parseSortOrderAmended (sortOrder : Option String) : List (String × String) :=
  match sortOrder with
  | none => [("id", "desc")]
  | some s =>
    match jsSplit s ':' with
    | f :: d :: _ =>
      if f ∈ validFields ∧ d ∈ validDirections then [(f, d)] else [("id", "desc")]
    | _ => [("id", "desc")]

/-- JavaScript string-valued `a || b`: keep `a` unless it is null, undefined
or empty (the falsy string values), otherwise fall through to `b`. -/
def jsOr (a : Option String) (b : String) : String :=
  match a with
  | none => b
  | some s => if s = "" then b else s

/-- GetAlbum.ts line 87: `albumMeta.sortOrder || SETTINGS.defaultSortOrder ||
"createdAt:desc"`. -/
def effectiveSortOrder (albumSort globalDefault : Option String) : String :=
  jsOr albumSort (jsOr globalDefault "createdAt:desc")

/-- Comparison of two file rows on one sortable column, ascending. -/
def fieldLe (f : String) (a b : FileRow) : Bool :=
  if f = "createdAt" then decide (a.createdAt ≤ b.createdAt)
  else if f = "name" then decide (a.name ≤ b.name)
  else if f = "size" then decide (a.size ≤ b.size)
  else decide (a.id ≤ b.id)

/-- The ordering induced by a prisma `orderBy` record (as produced by
`parseSortOrder`): its single field/direction pair, descending meaning the
reversed column comparison. -/
def fileLe (orderBy : List (String × String)) (a b : FileRow) : Bool :=
  match orderBy with
  | [] => true
  | (f, d) :: _ => if d = "desc" then fieldLe f b a else fieldLe f a b

/-- The database ordering the nested `files` select performs: the rows sorted
by the `orderBy` record. -/
def sortFiles (orderBy : List (String × String)) (files : List FileRow) : List FileRow :=
  List.insertionSort (fun a b => fileLe orderBy a b = true) files

/-- Modelled from the spec: `constructFilePublicLink` lives in
`@/utils/File.js`, which is not part of the excerpt; the spec describes it as
a "helper that derives a public-facing link/URL for a stored file given its
storage backend (local disk vs. object storage) and watch-folder origin".
Object-storage files resolve against the public storage URL setting,
local-disk files against the request URL, watch-folder files under a
distinct path. -/
def constructFilePublicLink (settings : Settings) (req : Request)
    (fileName : String) (isS3 isWatched : Bool) : String :=
  if isS3 then settings.S3PublicUrl ++ "/" ++ fileName
  else if isWatched then req.baseUrl ++ "/watched/" ++ fileName
  else req.baseUrl ++ "/" ++ fileName

/-- A file as it appears in the response: the selected columns spread
together with the public-link field (GetAlbum.ts lines 128-134). -/
structure FileDTO where
  createdAt : Nat
  hash : String
  ip : String
  name : String
  original : String
  size : Nat
  type : String
  uuid : String
  isS3 : Bool
  isWatched : Bool
  url : String
deriving Repr, DecidableEq

/-- `\x7b ...modifiedFile, ...constructFilePublicLink(\x7b req, fileName:
modifiedFile.name, isS3: file.isS3, isWatched: file.isWatched \x7d) \x7d`. -/
def toDTO (settings : Settings) (req : Request) (f : FileRow) : FileDTO :=
  { createdAt := f.createdAt
    hash := f.hash
    ip := f.ip
    name := f.name
    original := f.original
    size := f.size
    type := f.type
    uuid := f.uuid
    isS3 := f.isS3
    isWatched := f.isWatched
    url := constructFilePublicLink settings req f.name f.isS3 f.isWatched }

/-- The 200 response body (GetAlbum.ts lines 136-144 and the 200 schema at
lines 40-48): exactly the fields message, name, description, isNsfw,
sortOrder, count and files. -/
structure SuccessBody where
  message : String
  name : String
  description : Option String
  isNsfw : Bool
  sortOrder : Option String
  count : Nat
  files : List FileDTO
deriving Repr, DecidableEq

/-- The observable outcome of one handler invocation: either the fastify
`notFound` reply or the success envelope. -/
inductive Response where
  | notFound (msg : String)
  | success (body : SuccessBody)
deriving Repr, DecidableEq

/-- `prisma.albums.findFirst(\x7b where: \x7b uuid, userId \x7d \x7d)`: the
first album row matching both the uuid and the user id. -/
def findFirstAlbum (db : List Album) (uuid : String) (userId : Nat) : Option Album :=
  db.find? (fun a => a.uuid == uuid && a.userId == userId)

/-- The handler `run` (GetAlbum.ts lines 60-145).  The database is passed
explicitly; both prisma queries use the same where clause against the same
snapshot, per the single-request model of the spec.  `_count: true` counts
the whole relation, unaffected by the nested skip/take, hence
`album.files.length`. -/
def run (db : List Album) (settings : Settings) (req : Request) : Response :=
  let page := req.page.getD 1
  let limit := req.limit.getD 50
  let take := limit
  let skip := (page - 1) * limit
  match findFirstAlbum db req.uuid req.userId with
  | none => Response.notFound "The album could not be found"
  | some albumMeta =>
    let eff := effectiveSortOrder albumMeta.sortOrder settings.defaultSortOrder
    let orderBy := parseSortOrder (some eff)
    match findFirstAlbum db req.uuid req.userId with
    | none => Response.notFound "The album could not be found"
    | some album =>
      let files := (((sortFiles orderBy album.files).drop skip).take take).map (toDTO settings req)
      Response.success
        { message := "Successfully retrieved album"
          name := album.name
          description := album.description
          isNsfw := album.nsfw
          sortOrder := album.sortOrder
          count := album.files.length
          files := files }

/-- The page of file DTOs run builds for a found album: sort by the parsed
effective sort order, skip `(page - 1) * limit`, take `limit`, map to DTOs. -/
def pagedFiles (settings : Settings) (req : Request) (album : Album) : List FileDTO :=
  (((sortFiles (parseSortOrder (some (effectiveSortOrder album.sortOrder settings.defaultSortOrder)))
      album.files).drop ((req.page.getD 1 - 1) * req.limit.getD 50)).take
    (req.limit.getD 50)).map (toDTO settings req)

/-- The success body run sends for a found album. -/
def responseBody (settings : Settings) (req : Request) (album : Album) : SuccessBody :=
  { message := "Successfully retrieved album"
    name := album.name
    description := album.description
    isNsfw := album.nsfw
    sortOrder := album.sortOrder
    count := album.files.length
    files := pagedFiles settings req album }

/-! Concrete fixtures used by the witness theorems. -/

/-- A small local-disk file row. -/
def fileA : FileRow :=
  { id := 1, createdAt := 10, hash := "h1", ip := "10.0.0.1", name := "alpha.png"
    original := "alpha-orig.png", size := 100, type := "image/png", uuid := "f-a"
    isS3 := false, isWatched := false }

/-- An object-storage file row. -/
def fileB : FileRow :=
  { id := 2, createdAt := 20, hash := "h2", ip := "10.0.0.1", name := "beta.png"
    original := "beta-orig.png", size := 50, type := "image/png", uuid := "f-b"
    isS3 := true, isWatched := false }

/-- A watch-folder file row. -/
def fileC : FileRow :=
  { id := 3, createdAt := 30, hash := "h3", ip := "10.0.0.1", name := "gamma.png"
    original := "gamma-orig.png", size := 75, type := "image/png", uuid := "f-c"
    isS3 := false, isWatched := true }

/-- A numbered synthetic file row, for pagination fixtures. -/
def mkFile (n : Nat) : FileRow :=
  { id := n, createdAt := n, hash := "h", ip := "10.0.0.1", name := "f"
    original := "o", size := n, type := "t", uuid := "u"
    isS3 := false, isWatched := false }

/-- An album owned by user 7 with a per-album sort order. -/
def albumX : Album :=
  { uuid := "a1", userId := 7, name := "Holiday", description := some "pics"
    nsfw := false, sortOrder := some "size:asc", files := [fileA, fileB, fileC] }

/-- An album owned by user 7 with no stored sort order. -/
def albumY : Album :=
  { uuid := "a2", userId := 7, name := "Inbox", description := none
    nsfw := true, sortOrder := none, files := [fileA, fileB, fileC] }

/-- An album owned by user 7 with eleven files, for the pagination claims. -/
def albumZ : Album :=
  { uuid := "a3", userId := 7, name := "Bulk", description := none
    nsfw := false, sortOrder := some "createdAt:asc"
    files := (List.range 11).map mkFile }

/-- Settings with no global default sort order. -/
def settings0 : Settings :=
  { defaultSortOrder := none, S3PublicUrl := "https://s3.example" }

/-- Settings carrying a global default sort order. -/
def settingsG : Settings :=
  { defaultSortOrder := some "size:asc", S3PublicUrl := "https://s3.example" }

/-- A request for albumX by its owner, without pagination parameters. -/
def reqX : Request :=
  { uuid := "a1", userId := 7, page := none, limit := none
    baseUrl := "https://chibi.example" }

/-- A request for albumY by its owner. -/
def reqY : Request :=
  { uuid := "a2", userId := 7, page := none, limit := none
    baseUrl := "https://chibi.example" }

/-- A request for albumZ with page 2 and limit 10. -/
def reqZ : Request :=
  { uuid := "a3", userId := 7, page := some 2, limit := some 10
    baseUrl := "https://chibi.example" }

/-- A request for albumX with a window starting past the end of the album. -/
def reqPast : Request :=
  { uuid := "a1", userId := 7, page := some 3, limit := some 50
    baseUrl := "https://chibi.example" }

/-- A request whose uuid matches no album. -/
def reqMissing : Request :=
  { uuid := "nope", userId := 7, page := none, limit := none
    baseUrl := "https://chibi.example" }

/-- The body run produces for reqX against albumX: files sorted by
ascending size (beta 50, gamma 75, alpha 100). -/
def bodyX : SuccessBody :=
  { message := "Successfully retrieved album", name := "Holiday"
    description := some "pics", isNsfw := false, sortOrder := some "size:asc"
    count := 3
    files := [toDTO settings0 reqX fileB, toDTO settings0 reqX fileC, toDTO settings0 reqX fileA] }

/-- The body run produces for reqY against albumY under settingsG: the album
stores no sort order, so the global default size:asc applies, while the
echoed sortOrder field stays null. -/
def bodyY : SuccessBody :=
  { message := "Successfully retrieved album", name := "Inbox"
    description := none, isNsfw := true, sortOrder := none
    count := 3
    files := [toDTO settingsG reqY fileB, toDTO settingsG reqY fileC, toDTO settingsG reqY fileA] }

/-- The body run produces for reqZ against albumZ: page 2 with limit 10 over
eleven createdAt-ascending files leaves exactly the eleventh file. -/
def bodyZ : SuccessBody :=
  { message := "Successfully retrieved album", name := "Bulk"
    description := none, isNsfw := false, sortOrder := some "createdAt:asc"
    count := 11
    files := [toDTO settings0 reqZ (mkFile 10)] }


section Lemmas

/-- Concrete checkpoints of the parser on the edge shapes the route can
receive.  Note that id:asc falls back: id is a valid direction target only
through the default, not through the allow-list. -/
lemma parseSortOrder_concrete :
    parseSortOrder none = [("id", "desc")] ∧
    parseSortOrder (some "") = [("id", "desc")] ∧
    parseSortOrder (some "name:asc") = [("name", "asc")] ∧
    parseSortOrder (some "size:desc") = [("size", "desc")] ∧
    parseSortOrder (some "createdAt:asc") = [("createdAt", "asc")] ∧
    parseSortOrder (some "name") = [("id", "desc")] ∧
    parseSortOrder (some "name:") = [("id", "desc")] ∧
    parseSortOrder (some ":asc") = [("id", "desc")] ∧
    parseSortOrder (some "id:asc") = [("id", "desc")] ∧
    parseSortOrder (some "name:up") = [("id", "desc")] := by
  decide

/-- Concrete checkpoints of the whole handler: a request without pagination
parameters returns all files sorted by the album sort order, and an unknown
uuid is rejected. -/
lemma run_concrete :
    run [albumX] settings0 reqX = Response.success bodyX ∧
    run [albumY] settingsG reqY = Response.success bodyY ∧
    run [albumZ] settings0 reqZ = Response.success bodyZ ∧
    run [albumX] settings0 reqMissing = Response.notFound "The album could not be found" := by
  refine ⟨by decide, by decide, by decide, by decide⟩

/-- Sorting the files relation does not change its length. -/
lemma length_sortFiles (orderBy : List (String × String)) (l : List FileRow) :
    (sortFiles orderBy l).length = l.length :=
  List.length_insertionSort _ l

/-- Sorting the files relation does not change its members. -/
lemma mem_sortFiles (orderBy : List (String × String)) (l : List FileRow) (a : FileRow) :
    a ∈ sortFiles orderBy l ↔ a ∈ l :=
  (List.perm_insertionSort _ l).mem_iff

/-- When the ownership check finds an album, run replies with its success
body. -/
lemma run_found (db : List Album) (settings : Settings) (req : Request) (album : Album)
    (h : findFirstAlbum db req.uuid req.userId = some album) :
    run db settings req = Response.success (responseBody settings req album) := by
  unfold run responseBody pagedFiles
  rw [h]

/-- Inversely, a success reply determines the found album and the body. -/
lemma run_success_inv (db : List Album) (settings : Settings) (req : Request)
    (body : SuccessBody) (h : run db settings req = Response.success body) :
    ∃ album, findFirstAlbum db req.uuid req.userId = some album ∧
      body = responseBody settings req album := by
  rcases hf : findFirstAlbum db req.uuid req.userId with _ | album
  · unfold run at h
    rw [hf] at h
    exact absurd h (by simp)
  · have h2 := run_found db settings req album hf
    rw [h2] at h
    injection h with h3
    exact ⟨album, rfl, h3.symm⟩


/-- The ownership check fails exactly when no row matches both the uuid and
the user id. -/
lemma findFirstAlbum_eq_none (db : List Album) (uuid : String) (userId : Nat) :
    findFirstAlbum db uuid userId = none ↔
      ∀ a ∈ db, ¬(a.uuid = uuid ∧ a.userId = userId) := by
  unfold findFirstAlbum
  rw [List.find?_eq_none]
  constructor
  · intro h a ha hc
    have := h a ha
    simp [hc.1, hc.2] at this
  · intro h a ha
    simp only [Bool.and_eq_true, beq_iff_eq]
    intro hc
    exact h a ha hc

end Lemmas

section Claims

/-- C1: for every request whose album uuid does not identify an album owned
by the requesting user (no row matches both the uuid and the requester user
id), run returns the not-found response and sends no success envelope; and
whenever the ownership check does find an album, run succeeds, so the
not-found outcome is the only explicit failure path. -/
theorem getAlbum_notFound_only (db : List Album) (settings : Settings) (req : Request) :
    ((¬ ∃ a ∈ db, a.uuid = req.uuid ∧ a.userId = req.userId) →
      run db settings req = Response.notFound "The album could not be found" ∧
      ∀ body, run db settings req ≠ Response.success body) ∧
    (∀ album, findFirstAlbum db req.uuid req.userId = some album →
      ∃ body, run db settings req = Response.success body) := by
  constructor
  · intro hno
    have hfind : findFirstAlbum db req.uuid req.userId = none := by
      rw [findFirstAlbum_eq_none]
      intro a ha hc
      exact hno ⟨a, ha, hc⟩
    have hrun : run db settings req = Response.notFound "The album could not be found" := by
      unfold run
      rw [hfind]
    refine ⟨hrun, fun body hbody => ?_⟩
    rw [hrun] at hbody
    exact absurd hbody (by simp)
  · intro album hfind
    exact ⟨responseBody settings req album, run_found db settings req album hfind⟩

/-- Witness for C1: a request for an unknown uuid is rejected, a request for
an owned album succeeds. -/
theorem getAlbum_notFound_only_witness :
    (run [albumX] settings0 reqMissing = Response.notFound "The album could not be found" ∧
      ∀ body, run [albumX] settings0 reqMissing ≠ Response.success body) ∧
    (∃ body, run [albumX] settings0 reqX = Response.success body) :=
  ⟨(getAlbum_notFound_only [albumX] settings0 reqMissing).1 (by decide),
   (getAlbum_notFound_only [albumX] settings0 reqX).2 albumX (by decide)⟩

/-- C4: for every successful request, the window of files in the response is
obtained by skipping exactly (page - 1) * limit sorted rows and taking
exactly limit of them, page defaulting to 1 and limit to 50 when absent. -/
theorem getAlbum_pagination (db : List Album) (settings : Settings) (req : Request)
    (body : SuccessBody) (h : run db settings req = Response.success body) :
    ∃ album, findFirstAlbum db req.uuid req.userId = some album ∧
      body.files =
        (((sortFiles (parseSortOrder (some (effectiveSortOrder album.sortOrder
            settings.defaultSortOrder))) album.files).drop
          ((req.page.getD 1 - 1) * req.limit.getD 50)).take
            (req.limit.getD 50)).map (toDTO settings req) := by
  obtain ⟨album, hfind, rfl⟩ := run_success_inv db settings req body h
  exact ⟨album, hfind, rfl⟩

/-- Witness for C4: page 2 with limit 10 over an eleven-file album skips ten
rows and takes the eleventh. -/
theorem getAlbum_pagination_witness :
    ∃ album, findFirstAlbum [albumZ] reqZ.uuid reqZ.userId = some album ∧
      bodyZ.files =
        (((sortFiles (parseSortOrder (some (effectiveSortOrder album.sortOrder
            settings0.defaultSortOrder))) album.files).drop
          ((reqZ.page.getD 1 - 1) * reqZ.limit.getD 50)).take
            (reqZ.limit.getD 50)).map (toDTO settings0 reqZ) :=
  getAlbum_pagination [albumZ] settings0 reqZ bodyZ (by decide)

/-- C5: every success body reports count equal to the total number of files
in the album, whatever page and limit were and however many files the window
holds. -/
theorem getAlbum_count_total (db : List Album) (settings : Settings) (req : Request)
    (body : SuccessBody) (h : run db settings req = Response.success body) :
    ∃ album, findFirstAlbum db req.uuid req.userId = some album ∧
      body.count = album.files.length := by
  obtain ⟨album, hfind, rfl⟩ := run_success_inv db settings req body h
  exact ⟨album, hfind, rfl⟩

/-- Witness for C5: page 2 with limit 10 returns a single file yet count 11. -/
theorem getAlbum_count_total_witness :
    ∃ album, findFirstAlbum [albumZ] reqZ.uuid reqZ.userId = some album ∧
      bodyZ.count = album.files.length :=
  getAlbum_count_total [albumZ] settings0 reqZ bodyZ (by decide)

/-- C6: when the window starts at or past the end of the file list, run
still succeeds, with an empty files array and the correct total count; no
bounds check rejects such a request. -/
theorem getAlbum_past_end (db : List Album) (settings : Settings) (req : Request)
    (album : Album) (hfind : findFirstAlbum db req.uuid req.userId = some album)
    (hskip : album.files.length ≤ (req.page.getD 1 - 1) * req.limit.getD 50) :
    ∃ body, run db settings req = Response.success body ∧
      body.files = [] ∧ body.count = album.files.length := by
  refine ⟨responseBody settings req album, run_found db settings req album hfind, ?_, rfl⟩
  show pagedFiles settings req album = []
  unfold pagedFiles
  have hlen : (sortFiles (parseSortOrder (some (effectiveSortOrder album.sortOrder
      settings.defaultSortOrder))) album.files).length ≤
      (req.page.getD 1 - 1) * req.limit.getD 50 := by
    rw [length_sortFiles]
    exact hskip
  rw [List.drop_eq_nil_of_le hlen, List.take_nil, List.map_nil]

/-- Witness for C6: page 3, limit 50 against a three-file album yields the
empty window with count 3. -/
theorem getAlbum_past_end_witness :
    ∃ body, run [albumX] settings0 reqPast = Response.success body ∧
      body.files = [] ∧ body.count = albumX.files.length :=
  getAlbum_past_end [albumX] settings0 reqPast albumX (by decide) (by decide)

/-- C8: every success reply is the fixed envelope of exactly the fields
message, name, description, isNsfw, sortOrder, count and files (the whole
SuccessBody record), with name, description and the nsfw flag taken from the
fetched album row. -/
theorem getAlbum_envelope (db : List Album) (settings : Settings) (req : Request)
    (body : SuccessBody) (h : run db settings req = Response.success body) :
    ∃ album, findFirstAlbum db req.uuid req.userId = some album ∧
      body = { message := "Successfully retrieved album"
               name := album.name
               description := album.description
               isNsfw := album.nsfw
               sortOrder := album.sortOrder
               count := album.files.length
               files := pagedFiles settings req album } := by
  obtain ⟨album, hfind, rfl⟩ := run_success_inv db settings req body h
  exact ⟨album, hfind, rfl⟩

/-- Witness for C8 at a concrete album with a null description and the nsfw
flag set. -/
theorem getAlbum_envelope_witness :
    ∃ album, findFirstAlbum [albumY] reqY.uuid reqY.userId = some album ∧
      bodyY = { message := "Successfully retrieved album"
                name := album.name
                description := album.description
                isNsfw := album.nsfw
                sortOrder := album.sortOrder
                count := album.files.length
                files := pagedFiles settingsG reqY album } :=
  getAlbum_envelope [albumY] settingsG reqY bodyY (by decide)

/-- C10: the sortOrder field of every success body echoes the stored album
value exactly, never the effective sort order; in particular a null stored
value stays null even when a global default was applied to the query. -/
theorem getAlbum_sortOrder_echo (db : List Album) (settings : Settings) (req : Request)
    (body : SuccessBody) (h : run db settings req = Response.success body) :
    ∃ album, findFirstAlbum db req.uuid req.userId = some album ∧
      body.sortOrder = album.sortOrder ∧
      (album.sortOrder = none → body.sortOrder = none) := by
  obtain ⟨album, hfind, rfl⟩ := run_success_inv db settings req body h
  refine ⟨album, hfind, rfl, fun h2 => ?_⟩
  show (responseBody settings req album).sortOrder = none
  simp [responseBody, h2]

/-- Witness for C10: albumY stores no sort order and the global default
size:asc orders the query, yet the reply reports sortOrder null. -/
theorem getAlbum_sortOrder_echo_witness :
    ∃ album, findFirstAlbum [albumY] reqY.uuid reqY.userId = some album ∧
      bodyY.sortOrder = album.sortOrder ∧
      (album.sortOrder = none → bodyY.sortOrder = none) :=
  getAlbum_sortOrder_echo [albumY] settingsG reqY bodyY (by decide)

/-- C3: the effective sort-order string follows the three-step precedence
chain — the album setting when present and non-empty, else the global
default setting when present and non-empty, else the hardcoded
createdAt:desc — and the files of every success reply are ordered by the
parse of that resolved string. -/
theorem getAlbum_sort_resolution (db : List Album) (settings : Settings) (req : Request)
    (body : SuccessBody) (h : run db settings req = Response.success body) :
    ∃ album, findFirstAlbum db req.uuid req.userId = some album ∧
      (∀ s, album.sortOrder = some s → s ≠ "" →
        effectiveSortOrder album.sortOrder settings.defaultSortOrder = s) ∧
      ((album.sortOrder = none ∨ album.sortOrder = some "") →
        ∀ g, settings.defaultSortOrder = some g → g ≠ "" →
          effectiveSortOrder album.sortOrder settings.defaultSortOrder = g) ∧
      ((album.sortOrder = none ∨ album.sortOrder = some "") →
        (settings.defaultSortOrder = none ∨ settings.defaultSortOrder = some "") →
          effectiveSortOrder album.sortOrder settings.defaultSortOrder = "createdAt:desc") ∧
      body.files = pagedFiles settings req album := by
  obtain ⟨album, hfind, rfl⟩ := run_success_inv db settings req body h
  refine ⟨album, hfind, ?_, ?_, ?_, rfl⟩
  · intro s hs hne
    rw [hs]
    simp [effectiveSortOrder, jsOr, hne]
  · rintro (h1 | h1) g hg hgne <;> rw [h1, hg] <;> simp [effectiveSortOrder, jsOr, hgne]
  · rintro (h1 | h1) (h2 | h2) <;> rw [h1, h2] <;> simp [effectiveSortOrder, jsOr]

/-- Witness for C3 at an album carrying its own sort order. -/
theorem getAlbum_sort_resolution_witness :
    ∃ album, findFirstAlbum [albumX] reqX.uuid reqX.userId = some album ∧
      (∀ s, album.sortOrder = some s → s ≠ "" →
        effectiveSortOrder album.sortOrder settings0.defaultSortOrder = s) ∧
      ((album.sortOrder = none ∨ album.sortOrder = some "") →
        ∀ g, settings0.defaultSortOrder = some g → g ≠ "" →
          effectiveSortOrder album.sortOrder settings0.defaultSortOrder = g) ∧
      ((album.sortOrder = none ∨ album.sortOrder = some "") →
        (settings0.defaultSortOrder = none ∨ settings0.defaultSortOrder = some "") →
          effectiveSortOrder album.sortOrder settings0.defaultSortOrder = "createdAt:desc") ∧
      bodyX.files = pagedFiles settings0 reqX album :=
  getAlbum_sort_resolution [albumX] settings0 reqX bodyX (by decide)

/-- C7: every file of every success reply carries the public-link field
produced by constructFilePublicLink from that file row name and its isS3 and
isWatched storage flags, and stems from a row of the album. -/
theorem getAlbum_public_links (db : List Album) (settings : Settings) (req : Request)
    (body : SuccessBody) (h : run db settings req = Response.success body) :
    ∃ album, findFirstAlbum db req.uuid req.userId = some album ∧
      ∀ dto ∈ body.files,
        dto.url = constructFilePublicLink settings req dto.name dto.isS3 dto.isWatched ∧
        ∃ f ∈ album.files, dto = toDTO settings req f := by
  obtain ⟨album, hfind, rfl⟩ := run_success_inv db settings req body h
  refine ⟨album, hfind, ?_⟩
  intro dto hdto
  have hdto2 : dto ∈ pagedFiles settings req album := hdto
  unfold pagedFiles at hdto2
  obtain ⟨f, hf, rfl⟩ := List.mem_map.1 hdto2
  refine ⟨rfl, f, ?_, rfl⟩
  have h1 := List.mem_of_mem_take hf
  have h2 := List.mem_of_mem_drop h1
  exact (mem_sortFiles _ _ f).1 h2

/-- Witness for C7: albumX holds a local-disk, an object-storage and a
watch-folder file. -/
theorem getAlbum_public_links_witness :
    ∃ album, findFirstAlbum [albumX] reqX.uuid reqX.userId = some album ∧
      ∀ dto ∈ bodyX.files,
        dto.url = constructFilePublicLink settings0 reqX dto.name dto.isS3 dto.isWatched ∧
        ∃ f ∈ album.files, dto = toDTO settings0 reqX f :=
  getAlbum_public_links [albumX] settings0 reqX bodyX (by decide)

/-- C9: parseSortOrder is total and, on every input — null, empty, without a
colon, with several colons — returns a record with exactly one key drawn
from id, createdAt, name and size whose value is asc or desc. -/
theorem parseSortOrder_total_shape (s : Option String) :
    ∃ k v, parseSortOrder s = [(k, v)] ∧
      k ∈ ["id", "createdAt", "name", "size"] ∧ v ∈ ["asc", "desc"] := by
  cases s with
  | none => exact ⟨"id", "desc", rfl, by decide, by decide⟩
  | some str =>
    by_cases hstr : str = ""
    · subst hstr
      exact ⟨"id", "desc", rfl, by decide, by decide⟩
    · simp only [parseSortOrder, if_neg hstr]
      split_ifs with h1 h2
      · exact ⟨"id", "desc", rfl, by decide, by decide⟩
      · exact ⟨"id", "desc", rfl, by decide, by decide⟩
      · push_neg at h2
        refine ⟨_, _, rfl, ?_, ?_⟩
        · exact List.mem_cons_of_mem _ h2.1
        · exact h2.2

/-- Counterexample for C2 as stated: the input name:asc:x is not of the form
field:direction for any allowed field and direction, yet parseSortOrder does
not fall back to id desc — it returns the ordering name asc. -/
theorem parseSortOrder_claim_cex :
    (¬ ∃ f d, f ∈ validFields ∧ d ∈ validDirections ∧ "name:asc:x" = f ++ ":" ++ d) ∧
    parseSortOrder (some "name:asc:x") = [("name", "asc")] ∧
    parseSortOrder (some "name:asc:x") ≠ [("id", "desc")] := by
  refine ⟨?_, by decide, by decide⟩
  rintro ⟨f, d, hf, hd, he⟩
  simp only [validFields, List.mem_cons, List.not_mem_nil, or_false] at hf
  simp only [validDirections, List.mem_cons, List.not_mem_nil, or_false] at hd
  rcases hf with rfl | rfl | rfl <;> rcases hd with rfl | rfl <;>
    exact absurd he (by decide)

/-- C2 amended: parseSortOrder agrees everywhere with the rule that the
first two colon-separated segments decide the ordering when they are an
allowed field and an allowed direction (further segments ignored), every
other input falling back to id desc. -/
theorem parseSortOrder_eq_amended (s : Option String) :
    parseSortOrder s = parseSortOrderAmended s := by
  cases s with
  | none => rfl
  | some str =>
    by_cases hstr : str = ""
    · subst hstr
      decide
    · simp only [parseSortOrder, parseSortOrderAmended, if_neg hstr]
      rcases hp : jsSplit str ':' with _ | ⟨f, _ | ⟨d, rest⟩⟩
      · simp
      · simp
      · simp only [List.getD_cons_zero, List.getD_cons_succ]
        by_cases h1 : f = "" ∨ d = ""
        · rw [if_pos h1]
          have hno : ¬(f ∈ validFields ∧ d ∈ validDirections) := by
            rintro ⟨hf, hd⟩
            rcases h1 with rfl | rfl
            · simp [validFields] at hf
            · simp [validDirections] at hd
          rw [if_neg hno]
        · rw [if_neg h1]
          by_cases h2 : f ∉ validFields ∨ d ∉ validDirections
          · rw [if_pos h2]
            have hno : ¬(f ∈ validFields ∧ d ∈ validDirections) := by tauto
            rw [if_neg hno]
          · rw [if_neg h2]
            push_neg at h2
            rw [if_pos h2]

end Claims

end Chibisafe
